import Mathlib

set_option maxRecDepth 8192

/-!
Verification of the per-session chat-history subsystem of the
DennouChan Discord bot (`dchanbot/core/chat/`): the in-memory message
cache with SQLite persistence (`history.py`), the summarizer
(`summarizer.py`), token accounting (`token_usage_tracker.py`) and the
session registry (`chat_instance.py`).

The Python code is embedded shallowly: the SQLite table becomes a list
of rows (insertion order = rowid order), `ORDER BY timestamp ASC`
becomes a sort by timestamp, Python exceptions become `Except` values
that carry the state as it was when the exception was raised (Python
does not roll back mutations made before a raise), and float epoch
timestamps are modelled as integers (only comparison and equality on
timestamps occur in the code under study).
-/

namespace DchanBot

/-- Role of an in-memory message: `HumanMessage` or `AIMessage`
(the only message classes this code constructs). -/
inductive Role
  | human
  | ai
deriving DecidableEq, Repr

/-- An in-memory chat message.  `ts` models
`additional_kwargs.get("timestamp", ...)`: `none` when the kwarg is
absent (the code then falls back to `0.0`). -/
structure Msg where
  role : Role
  content : String
  ts : Option Int
deriving DecidableEq, Repr

/-- A row of the `chat_history` SQLite table
(columns `session_id TEXT, role TEXT, content TEXT, timestamp REAL`;
no primary key, no uniqueness constraint). -/
structure DBRow where
  session_id : String
  role : String
  content : String
  ts : Int
deriving DecidableEq, Repr

/-- Python exception kinds raised by the code under study. -/
inductive PyErr
  | attributeError
  | typeError
deriving DecidableEq, Repr

/-- State of a `ChatHistory` instance (`history.py`): the session id and
the `_max_recent`, `_summarize_threshold` and `_messages` fields.  The
database is passed separately to each operation. -/
structure ChatHistory where
  session_id : String
  max_recent : Nat
  summarize_threshold : Nat
  messages : List Msg
deriving DecidableEq, Repr

/-- Attribute lookup on a `ChatHistory` object, restricted to the
message-list-valued attributes.  The only such attribute the class ever
assigns is `_messages` (in `__init__`); any other name raises
`AttributeError`. -/
def ChatHistory.lookupAttr (h : ChatHistory) (name : String) : Option (List Msg) :=
  if name = "_messages" then some h.messages else none

/-- The `messages` property (`history.py` line 58): `return self._messges`.
The name `_messges` is a typo for `_messages` and is assigned nowhere in
the class, so the lookup fails. -/
def ChatHistory.messagesProp (h : ChatHistory) : Except PyErr (List Msg) :=
  match h.lookupAttr "_messges" with
  | some v => Except.ok v
  | none => Except.error PyErr.attributeError

/-- `aget_messages` (`history.py` lines 60-66): `return self._messages`. -/
def ChatHistory.aget_messages (h : ChatHistory) : List Msg :=
  h.messages

/-- `aadd_messages` (`history.py` lines 76-82): `self._messages.extend(messages)`. -/
def ChatHistory.aadd_messages (h : ChatHistory) (msgs : List Msg) : ChatHistory :=
  { h with messages := h.messages ++ msgs }

/-- `clear` (`history.py` lines 84-86): `self._messages.clear()`. -/
def ChatHistory.clearMem (h : ChatHistory) : ChatHistory :=
  { h with messages := [] }

/-- Role string written by `flush_to_db`:
`"Human" if isinstance(msg, HumanMessage) else "AI"`. -/
def roleStr : Role → String
  | Role.human => "Human"
  | Role.ai => "AI"

/-- The row `flush_to_db` inserts for one in-memory message
(`history.py` lines 123-136); an absent timestamp kwarg defaults to `0.0`. -/
def msgToRow (sid : String) (m : Msg) : DBRow :=
  { session_id := sid, role := roleStr m.role, content := m.content, ts := m.ts.getD 0 }

/-- `flush_to_db` (`history.py` lines 117-137): inserts a row for every
in-memory message, unconditionally, then commits. -/
def ChatHistory.flush_to_db (h : ChatHistory) (db : List DBRow) : List DBRow :=
  db ++ h.messages.map (msgToRow h.session_id)

/-- Reconstruction of an in-memory message from a row
(`history.py` lines 111-115):
`cls = HumanMessage if role == "Human" else AIMessage`, timestamp kwarg
set from the stored column. -/
def rowToMsg (r : DBRow) : Msg :=
  { role := if r.role = "Human" then Role.human else Role.ai,
    content := r.content, ts := some r.ts }

/-- Row ordering used by `ORDER BY timestamp ASC`. -/
def tsLe (a b : DBRow) : Prop :=
  a.ts ≤ b.ts

instance : DecidableRel tsLe :=
  fun a b => inferInstanceAs (Decidable (a.ts ≤ b.ts))

instance : IsTotal DBRow tsLe :=
  ⟨fun a b => Int.le_total a.ts b.ts⟩

instance : IsTrans DBRow tsLe :=
  ⟨fun _ _ _ hab hbc => le_trans hab hbc⟩

/-- The `SELECT ... ORDER BY timestamp ASC`: a stable sort of the rows
by timestamp. -/
def sortRows (rows : List DBRow) : List DBRow :=
  List.insertionSort tsLe rows

/-- `load_all_messages` (`history.py` lines 100-115): clears the
in-memory list, then loads this session's rows ordered by timestamp
ascending. -/
def ChatHistory.load_all_messages (h : ChatHistory) (db : List DBRow) : ChatHistory :=
  { h with
      messages :=
        (sortRows (db.filter (fun r => r.session_id == h.session_id))).map rowToMsg }

/-- The `DELETE FROM chat_history WHERE session_id = ? AND timestamp = ?`
statement executed per old message during compaction
(`history.py` lines 189-192): removes every row whose session id and
timestamp both match. -/
def deleteByTimestamp (db : List DBRow) (sid : String) (t : Int) : List DBRow :=
  db.filter (fun r => !(r.session_id == sid && r.ts == t))

/-- The rows a `deleteByTimestamp` call removes. -/
def removedBy (db : List DBRow) (sid : String) (t : Int) : List DBRow :=
  db.filter (fun r => r.session_id == sid && r.ts == t)

/-- `summarize_if_necessary` (`history.py` lines 157-199).  Returns
early when the summarizer is `None` or the threshold is not crossed.
When the threshold IS crossed
(`len(self._messages) - self._max_recent > self._summarize_threshold`,
Python integer arithmetic, so the subtraction may be negative), the very
next statement, line 167, is
`recents = self._messages[-self.max_recent:]`: it reads the attribute
`max_recent`, which does not exist (the field is named `_max_recent`),
so an `AttributeError` is raised before any mutation of the list or the
store.  Lines 168-199 (the slicing, the summarizer call, the
`datetime().now()` call — itself a `TypeError` — the list replacement
and the delete/insert transaction) are unreachable.  The error carries
the state at raise time: the unchanged list and store. -/
def ChatHistory.summarize_if_necessary (h : ChatHistory)
    (summ : Option (List Msg → Except Unit String)) (db : List DBRow) :
    Except (PyErr × ChatHistory × List DBRow) (ChatHistory × List DBRow) :=
  match summ with
  | none => Except.ok (h, db)
  | some _ =>
    if (h.messages.length : Int) - (h.max_recent : Int) > (h.summarize_threshold : Int) then
      Except.error (PyErr.attributeError, h, db)
    else
      Except.ok (h, db)

/-- Timestamp of an in-memory message as `flush_to_db` reads it
(absent kwarg defaults to `0.0`). -/
def msgTs (m : Msg) : Int :=
  m.ts.getD 0

/-- Token usage counters (`token_usage_tracker.py`, `TokenUsage`). -/
structure TokenUsage where
  input_tokens : Nat
  output_tokens : Nat
  total_tokens : Nat
deriving DecidableEq, Repr

/-- Per-session chat statistics (`chat_instance.py`, `ChatStatistic`). -/
structure ChatStatistic where
  chat_count : Nat
  tokusage : TokenUsage
deriving DecidableEq, Repr

/-- A Python value reaching `update_token_usage` as `response`: either a
proper LLM response message (which has `usage_metadata` and `content`
attributes) or the bare coroutine object produced by calling an async
method without `await`. -/
inductive PyVal
  | coroutine
  | aiMessage (content : String) (usage : TokenUsage)
deriving DecidableEq, Repr

/-- Attribute `usage_metadata` of a response value: present on a
response message, absent on a coroutine object. -/
def usageMetadataOf : PyVal → Option TokenUsage
  | PyVal.coroutine => none
  | PyVal.aiMessage _ u => some u

/-- Attribute `content` of a response value: present on a response
message, absent on a coroutine object. -/
def contentOf : PyVal → Except PyErr String
  | PyVal.coroutine => Except.error PyErr.attributeError
  | PyVal.aiMessage c _ => Except.ok c

/-- `update_token_usage` (`token_usage_tracker.py` lines 51-64): reads
`response.usage_metadata` (raising `AttributeError` when the attribute
is absent) and adds its counters to `usage`. -/
def update_token_usage (u : TokenUsage) (resp : PyVal) : Except PyErr TokenUsage :=
  match usageMetadataOf resp with
  | none => Except.error PyErr.attributeError
  | some d =>
      Except.ok
        { input_tokens := u.input_tokens + d.input_tokens,
          output_tokens := u.output_tokens + d.output_tokens,
          total_tokens := u.total_tokens + d.total_tokens }

/-- State of a `Summarizer` (`summarizer.py`): its accumulated token
usage (`_tokusage`). -/
structure SummarizerState where
  tokusage : TokenUsage
deriving DecidableEq, Repr

/-- `Summarizer.summarize` (`summarizer.py` lines 24-33).  Line 25
assigns `response = self._chain.ainvoke({"text": text})` WITHOUT
awaiting it, so `response` is a coroutine object, not a model reply.
`update_token_usage(self._tokusage, response)` then reads
`response.usage_metadata`, which a coroutine does not have, raising
`AttributeError`; `response.content` on line 33 would fail the same way
but is never reached. -/
def SummarizerState.summarize (s : SummarizerState) (_text : String) :
    Except PyErr (String × SummarizerState) :=
  let response : PyVal := PyVal.coroutine
  match update_token_usage s.tokusage response with
  | Except.error e => Except.error e
  | Except.ok u =>
    match contentOf response with
    | Except.error e => Except.error e
    | Except.ok c => Except.ok (c, { s with tokusage := u })

/-- A successful result of the completion pipeline
(`runnable.ainvoke` in `chat_instance.py`): the assistant text and the
token usage it reports. -/
structure LLMResponse where
  content : String
  usage : TokenUsage
deriving DecidableEq, Repr

/-- The fallback reply built in the `except` branch of
`ChatInstances.chat` (`chat_instance.py` lines 127-132): a fixed polite
apology followed by the exception text. -/
def fallbackMessage (e : String) : String :=
  "内部エラーが発生しました。しばらくしてからもう一度お試しください。\n" ++ e

/-- The state of one chat session inside `ChatInstances`: its history
cache, the backing store and its `ChatStatistic` entry. -/
structure ChatSession where
  hist : ChatHistory
  db : List DBRow
  stat : ChatStatistic
deriving DecidableEq, Repr

/-- `ChatInstances.chat` (`chat_instance.py` lines 101-141) for an
existing session.  The completion pipeline (`runnable.ainvoke`, an
external collaborator wrapped in `RunnableWithMessageHistory`) is
passed in as its outcome `pipeline`:

* on failure, the `except` branch returns the fallback reply and
  nothing has been mutated — `RunnableWithMessageHistory` persists the
  (user, assistant) pair to the history only after the inner runnable
  succeeds, and the statistics updates come after the `except` return;
* on success, the wrapper has appended the `HumanMessage` (no timestamp
  kwarg) and the response message to the history, line 134 stamps the
  response with `now`, line 136 increments `chat_count`, line 137 adds
  the reported usage, and line 139 runs `summarize_if_necessary`, whose
  exception (if any) propagates with all earlier mutations kept. -/
def chat (s : ChatSession) (user_input : String) (now : Int)
    (pipeline : Except String LLMResponse)
    (summ : Option (List Msg → Except Unit String)) :
    Except (PyErr × ChatSession) (String × ChatSession) :=
  match pipeline with
  | Except.error e => Except.ok (fallbackMessage e, s)
  | Except.ok resp =>
    let hist1 := s.hist.aadd_messages
      [ { role := Role.human, content := user_input, ts := none },
        { role := Role.ai, content := resp.content, ts := some now } ]
    match update_token_usage s.stat.tokusage (PyVal.aiMessage resp.content resp.usage) with
    | Except.error e =>
        Except.error (e,
          { hist := hist1, db := s.db,
            stat := { s.stat with chat_count := s.stat.chat_count + 1 } })
    | Except.ok tok1 =>
      let stat1 : ChatStatistic := { chat_count := s.stat.chat_count + 1, tokusage := tok1 }
      match hist1.summarize_if_necessary summ s.db with
      | Except.error (e, h2, db2) => Except.error (e, { hist := h2, db := db2, stat := stat1 })
      | Except.ok (h2, db2) => Except.ok (resp.content, { hist := h2, db := db2, stat := stat1 })

/-- A summarizer that always succeeds (used to drive scenarios). -/
def okSumm : List Msg → Except Unit String :=
  fun _ => Except.ok "summary"

/-- The session state after a `chat` call, whether it returned normally
or raised (raised exceptions keep the mutations made before them). -/
def chatOutcomeState : Except (PyErr × ChatSession) (String × ChatSession) → ChatSession
  | Except.ok (_, s2) => s2
  | Except.error (_, s2) => s2

/-- One user turn of the §8 concrete scenario: a `chat` call whose
completion pipeline succeeds; the carried state continues whether the
call returned normally or raised (the bot keeps serving the session). -/
def stepChat (s : ChatSession) (k : Nat) : ChatSession :=
  chatOutcomeState (chat s "hi" (Int.ofNat k)
    (Except.ok { content := "reply", usage := ⟨1, 1, 2⟩ }) (some okSumm))

/-- `n` consecutive user turns with successful completions. -/
def runChats : Nat → ChatSession → ChatSession
  | 0, s => s
  | Nat.succ n, s => runChats n (stepChat s n)

/-- The fresh session `"s1"` of the §8 scenario: empty history and
store, zeroed statistics, default `max_recent = 20` and
`summarize_threshold = 100`. -/
def sessionS1 : ChatSession :=
  { hist := { session_id := "s1", max_recent := 20, summarize_threshold := 100, messages := [] },
    db := [],
    stat := { chat_count := 0, tokusage := ⟨0, 0, 0⟩ } }

/-! ### Concrete states used by the claim theorems -/

/-- A 121-message history at the default limits: the compaction
threshold is crossed (`121 - 20 = 101 > 100`). -/
def hist121 : ChatHistory :=
  { session_id := "s1", max_recent := 20, summarize_threshold := 100,
    messages := List.replicate 121 { role := Role.human, content := "hi", ts := some 1 } }

/-- A one-message history used for the double-flush scenario. -/
def histOne : ChatHistory :=
  { session_id := "s", max_recent := 20, summarize_threshold := 100,
    messages := [{ role := Role.human, content := "hi", ts := some 1 }] }

/-! ### Claim theorems -/

/-- Claim C9: reading the public `messages` property raises
`AttributeError` in every state (it returns the nonexistent attribute
`_messges`), while `aget_messages` returns the in-memory message
list. -/
theorem messagesProp_raises_aget_returns (h : ChatHistory) :
    h.messagesProp = Except.error PyErr.attributeError ∧ h.aget_messages = h.messages := by
  constructor
  · rfl
  · rfl

/-- Claim C10: `Summarizer.summarize` raises on every input and never
returns a summary string — the chain invocation is not awaited, so the
`response` is a coroutine object and reading `response.usage_metadata`
inside `update_token_usage` raises `AttributeError` on every call. -/
theorem summarize_always_raises (s : SummarizerState) (text : String) :
    s.summarize text = Except.error PyErr.attributeError := by
  rfl

/-- Claim C1 (code evaluated at the failing input): with the default
limits and 121 in-memory messages the threshold is crossed, yet
`summarize_if_necessary` raises `AttributeError` (line 167 reads the
nonexistent attribute `max_recent`) with the message list and the store
untouched, instead of compacting to `max_recent + 1` messages. -/
theorem compaction_raises_at_threshold :
    hist121.summarize_if_necessary (some okSumm) [] =
      Except.error (PyErr.attributeError, hist121, []) := by
  rfl

/-- Claim C3 (code evaluated at the failing input): flushing a
one-message history twice into an empty store inserts the same row
twice — `flush_to_db` re-inserts the entire in-memory list on every
call, so the second flush is not a no-op and the store holds duplicate
rows. -/
theorem flush_twice_duplicates :
    histOne.flush_to_db (histOne.flush_to_db []) =
      [{ session_id := "s", role := "Human", content := "hi", ts := 1 },
       { session_id := "s", role := "Human", content := "hi", ts := 1 }] := by
  rfl

/-- Claim C5: whenever the compaction threshold is crossed — in
particular whenever the summarization call would fail —
`summarize_if_necessary` propagates a failure having mutated neither
the in-memory message list nor the persistent store: the error carries
exactly the pre-call history and store.  (The failure is raised at
line 167, before the summarizer is even consulted, so no failing
summarizer can be reached after a mutation.) -/
theorem summarize_failure_leaves_state_unchanged
    (h : ChatHistory) (db : List DBRow) (f : List Msg → Except Unit String)
    (hcross : (h.messages.length : Int) - (h.max_recent : Int) > (h.summarize_threshold : Int)) :
    h.summarize_if_necessary (some f) db = Except.error (PyErr.attributeError, h, db) := by
  simp [ChatHistory.summarize_if_necessary, hcross]

/-- Witness for C5 at a concrete crossed-threshold state. -/
theorem summarize_failure_leaves_state_unchanged_witness :
    ((hist121.messages.length : Int) - (hist121.max_recent : Int) >
      (hist121.summarize_threshold : Int)) ∧
    hist121.summarize_if_necessary (some (fun _ => Except.error ())) [] =
      Except.error (PyErr.attributeError, hist121, []) :=
  ⟨by decide,
   summarize_failure_leaves_state_unchanged hist121 [] (fun _ => Except.error ()) (by decide)⟩

/-- Claim C6: when the completion pipeline fails, `ChatInstances.chat`
returns the fallback apology (a non-empty string, not silence) and
leaves the session's history, store and `ChatStatistic` exactly as they
were. -/
theorem chat_pipeline_failure_isolated
    (s : ChatSession) (u : String) (now : Int) (e : String)
    (summ : Option (List Msg → Except Unit String)) :
    chat s u now (Except.error e) summ = Except.ok (fallbackMessage e, s) ∧
    fallbackMessage e ≠ "" := by
  refine ⟨rfl, ?_⟩
  intro hcontra
  have hlen := congrArg String.length hcontra
  simp [fallbackMessage, String.length_append] at hlen
  exact absurd hlen.1 (by decide)

/-- One pipeline-successful `chat` call increments `chat_count` by
exactly one, whether or not the trailing compaction step raises. -/
theorem stepChat_chat_count (s : ChatSession) (k : Nat) :
    (stepChat s k).stat.chat_count = s.stat.chat_count + 1 := by
  unfold stepChat chat
  simp only [update_token_usage, usageMetadataOf]
  split <;> rfl


/-- `chat_count` after `n` pipeline-successful turns is the initial
count plus `n`. -/
theorem runChats_chat_count : ∀ (n : Nat) (s : ChatSession),
    (runChats n s).stat.chat_count = s.stat.chat_count + n
  | 0, _ => by simp [runChats]
  | Nat.succ n, s => by
      rw [runChats, runChats_chat_count n (stepChat s n), stepChat_chat_count]
      omega

/-- Claim C8 (counterexample): after 130 user turns of session `"s1"`
whose completion calls all succeed, `chat_count` is 130, not 65. -/
theorem chat_count_after_130_turns :
    (runChats 130 sessionS1).stat.chat_count = 130 ∧ (130 : Nat) ≠ 65 := by
  constructor
  · rw [runChats_chat_count 130 sessionS1]
    rfl
  · decide

/-- Claim C8 (amended): `chat_count` is incremented exactly once per
chat call whose completion succeeds (not once per message), so `n` such
turns raise it by `n` — 130 exchanges give 130, not 65. -/
theorem chat_count_counts_turns (n : Nat) (s : ChatSession) :
    (runChats n s).stat.chat_count = s.stat.chat_count + n :=
  runChats_chat_count n s

/-- An empty history at the default limits. -/
def emptyHist : ChatHistory :=
  { session_id := "s", max_recent := 20, summarize_threshold := 100, messages := [] }

/-- Claim C4 (counterexample): appending two messages whose timestamps
decrease leaves the in-memory list not strictly ordered — `aadd_messages`
performs no reordering. -/
theorem append_breaks_strict_ordering :
    ¬ ((emptyHist.aadd_messages
        [{ role := Role.human, content := "a", ts := some 5 },
         { role := Role.ai, content := "b", ts := some 3 }]).messages.Chain'
        (fun a b => msgTs a < msgTs b)) := by
  simp [emptyHist, ChatHistory.aadd_messages, msgTs]

/-- Sorted rows stay timestamp-sorted after reconstruction into
in-memory messages. -/
theorem pairwise_le_map_sortRows (rows : List DBRow) :
    ((sortRows rows).map rowToMsg).Pairwise (fun a b => msgTs a ≤ msgTs b) := by
  have hs : (sortRows rows).Pairwise tsLe := List.sorted_insertionSort tsLe rows
  rw [List.pairwise_map]
  exact hs.imp (fun hab => by simpa [rowToMsg, msgTs, tsLe] using hab)

/-- Claim C4 (amended): `load_all_messages` leaves the in-memory list
sorted by timestamp (non-decreasing; strict only when the stored
timestamps are distinct), while `aadd_messages` merely concatenates the
given batch at the end without re-sorting — so strict ordering after an
append holds only when the appended batch already extends the existing
ascending order. -/
theorem load_sorted_and_append_concatenates :
    (∀ (h : ChatHistory) (db : List DBRow),
      ((h.load_all_messages db).messages).Pairwise (fun a b => msgTs a ≤ msgTs b)) ∧
    (∀ (h : ChatHistory) (msgs : List Msg),
      (h.aadd_messages msgs).messages = h.messages ++ msgs) := by
  constructor
  · intro h db
    exact pairwise_le_map_sortRows _
  · intro h msgs
    rfl

/-- Round-trip of a single message through its stored row, provided the
message carries a timestamp kwarg. -/
theorem rowToMsg_msgToRow (sid : String) (m : Msg) (hm : m.ts.isSome) :
    rowToMsg (msgToRow sid m) = m := by
  rcases m with ⟨role, content, ts⟩
  cases ts with
  | none => exact absurd hm (by simp)
  | some v => cases role <;> rfl

/-- Claim C2: starting from a store with no rows for the session, every
in-memory message carrying a timestamp, flushing and then loading yields
exactly the appended messages (a permutation of them, each preserved
verbatim — role, content and timestamp included), ordered by timestamp
ascending. -/
theorem flush_load_round_trip (h : ChatHistory) (db : List DBRow)
    (hfresh : db.filter (fun r => r.session_id == h.session_id) = [])
    (hts : ∀ m ∈ h.messages, m.ts.isSome) :
    ((h.load_all_messages (h.flush_to_db db)).messages).Perm h.messages ∧
    ((h.load_all_messages (h.flush_to_db db)).messages).Pairwise
      (fun a b => msgTs a ≤ msgTs b) := by
  have hfilter :
      (h.flush_to_db db).filter (fun r => r.session_id == h.session_id)
        = h.messages.map (msgToRow h.session_id) := by
    rw [ChatHistory.flush_to_db, List.filter_append, hfresh, List.nil_append]
    apply List.filter_eq_self.mpr
    intro r hr
    rcases List.mem_map.mp hr with ⟨m, _, rfl⟩
    simp [msgToRow]
  have hmsgs :
      (h.load_all_messages (h.flush_to_db db)).messages
        = (sortRows (h.messages.map (msgToRow h.session_id))).map rowToMsg := by
    simp [ChatHistory.load_all_messages, hfilter]
  have hid : (h.messages.map (msgToRow h.session_id)).map rowToMsg = h.messages := by
    rw [List.map_map]
    have hcong : ∀ m ∈ h.messages, (rowToMsg ∘ msgToRow h.session_id) m = id m := by
      intro m hm
      simp only [Function.comp_apply, id_eq]
      exact rowToMsg_msgToRow _ m (hts m hm)
    rw [List.map_congr_left hcong, List.map_id]
  constructor
  · rw [hmsgs]
    have hperm := (List.perm_insertionSort tsLe (h.messages.map (msgToRow h.session_id))).map rowToMsg
    rw [hid] at hperm
    exact hperm
  · rw [hmsgs]
    exact pairwise_le_map_sortRows _

/-- A two-message history (timestamps out of insertion order) used as
the round-trip witness. -/
def histTwo : ChatHistory :=
  { session_id := "s", max_recent := 20, summarize_threshold := 100,
    messages := [{ role := Role.human, content := "a", ts := some 2 },
                 { role := Role.ai, content := "b", ts := some 1 }] }

/-- Witness for C2 at a concrete two-message history over an empty
store. -/
theorem flush_load_round_trip_witness :
    (([] : List DBRow).filter (fun r => r.session_id == histTwo.session_id) = [] ∧
      ∀ m ∈ histTwo.messages, m.ts.isSome) ∧
    ((histTwo.load_all_messages (histTwo.flush_to_db [])).messages).Perm histTwo.messages ∧
    ((histTwo.load_all_messages (histTwo.flush_to_db [])).messages).Pairwise
      (fun a b => msgTs a ≤ msgTs b) :=
  ⟨⟨rfl, by decide⟩, flush_load_round_trip histTwo [] rfl (by decide)⟩

/-- Two distinct rows of one session sharing a timestamp (the table has
no uniqueness constraint, and flushing twice creates such states). -/
def rowsDup : List DBRow :=
  [{ session_id := "s", role := "Human", content := "a", ts := 5 },
   { session_id := "s", role := "AI", content := "b", ts := 5 }]

/-- Claim C7 (counterexample): on a store holding two distinct messages
of session `"s"` with timestamp 5, the compaction delete statement
removes both of them — more than one logical message. -/
theorem delete_removes_two_messages :
    deleteByTimestamp rowsDup "s" 5 = [] ∧ rowsDup.length = 2 ∧ rowsDup.Nodup := by
  refine ⟨rfl, rfl, ?_⟩
  decide

/-- A delete whose predicate matches no row leaves the store as is
(SQL `DELETE` with an empty match set is not an error). -/
theorem deleteByTimestamp_no_match (db : List DBRow) (sid : String) (t : Int)
    (hno : ∀ r ∈ db, ¬(r.session_id = sid ∧ r.ts = t)) :
    deleteByTimestamp db sid t = db := by
  apply List.filter_eq_self.mpr
  intro r hr
  by_cases hs : r.session_id = sid
  · have ht : r.ts ≠ t := fun ht => hno r hr ⟨hs, ht⟩
    simp [hs, ht]
  · simp [hs]

/-- In a list with pairwise-distinct timestamps, at most one element
has a given timestamp. -/
theorem filter_ts_length_le_one (t : Int) :
    ∀ (l : List DBRow), l.Pairwise (fun a b => a.ts ≠ b.ts) →
      (l.filter (fun r => r.ts == t)).length ≤ 1 := by
  intro l
  induction l with
  | nil => intro _; simp
  | cons a l ih =>
    intro hp
    rcases List.pairwise_cons.mp hp with ⟨ha, hl⟩
    by_cases hat : a.ts = t
    · have hnone : l.filter (fun r => r.ts == t) = [] := by
        apply List.filter_eq_nil_iff.mpr
        intro b hb
        simp only [beq_iff_eq]
        intro hbt
        exact (ha b hb) (hat.trans hbt.symm)
      simp [List.filter_cons, hat, hnone]
    · have hle := ih hl
      simp only [List.filter_cons, beq_iff_eq, hat]
      simpa using hle

/-- Every row is either kept by the delete or counted as removed. -/
theorem delete_length_partition (db : List DBRow) (sid : String) (t : Int) :
    (deleteByTimestamp db sid t).length + (removedBy db sid t).length = db.length := by
  have h : db.length = (removedBy db sid t).length + (deleteByTimestamp db sid t).length :=
    @List.length_eq_length_filter_add DBRow db (fun r => r.session_id == sid && r.ts == t)
  omega

/-- Under per-session timestamp uniqueness, the delete statement matches
at most one row. -/
theorem removedBy_length_le_one (db : List DBRow) (sid : String) (t : Int)
    (hp : (db.filter (fun r => r.session_id == sid)).Pairwise (fun a b => a.ts ≠ b.ts)) :
    (removedBy db sid t).length ≤ 1 := by
  have h1 : removedBy db sid t
      = (db.filter (fun r => r.session_id == sid)).filter (fun r => r.ts == t) := by
    rw [List.filter_filter]
    unfold removedBy
    apply List.filter_congr
    intro r _
    exact Bool.and_comm _ _
  rw [h1]
  exact filter_ts_length_le_one t _ hp

/-- Claim C7 (amended): the per-message delete executed during
compaction removes every row matching the session id and timestamp — at
most one row when timestamps are unique within the session — and is a
no-op (not an error) when no row matches. -/
theorem deleteByTimestamp_at_most_one (db : List DBRow) (sid : String) (t : Int) :
    ((∀ r ∈ db, ¬(r.session_id = sid ∧ r.ts = t)) → deleteByTimestamp db sid t = db) ∧
    ((db.filter (fun r => r.session_id == sid)).Pairwise (fun a b => a.ts ≠ b.ts) →
      db.length ≤ (deleteByTimestamp db sid t).length + 1) := by
  constructor
  · exact deleteByTimestamp_no_match db sid t
  · intro hp
    have hpart := delete_length_partition db sid t
    have hle := removedBy_length_le_one db sid t hp
    omega

/-- Two rows of one session with distinct timestamps, used as the
delete witness. -/
def rowsU : List DBRow :=
  [{ session_id := "s", role := "Human", content := "a", ts := 5 },
   { session_id := "s", role := "AI", content := "b", ts := 7 }]

/-- Witness for the amended C7 at a concrete store: a no-match delete
is the identity, and a matching delete removes at most one row. -/
theorem deleteByTimestamp_at_most_one_witness :
    ((∀ r ∈ rowsU, ¬(r.session_id = "s" ∧ r.ts = 9)) ∧
      deleteByTimestamp rowsU "s" 9 = rowsU) ∧
    ((rowsU.filter (fun r => r.session_id == "s")).Pairwise (fun a b => a.ts ≠ b.ts) ∧
      rowsU.length ≤ (deleteByTimestamp rowsU "s" 5).length + 1) :=
  ⟨⟨by decide, (deleteByTimestamp_at_most_one rowsU "s" 9).1 (by decide)⟩,
   ⟨by decide, (deleteByTimestamp_at_most_one rowsU "s" 5).2 (by decide)⟩⟩

end DchanBot
